import Mathlib

/-!
# Verification of the email-to-event pipeline (parent-pal)

Shallow embedding of the decision logic of the two services:

* `src/parser/main.py` — `RegexParser` (`parse`, `_clean_subject`,
  `_extract_dates`, `_extract_location`, `_extract_prep_items`),
  `EventParser` (`_process_email`, `_parse_with_ollama`, `_insert_event`,
  the `parse_queue` batch loop);
* `src/worker/main.py` — `ReminderWorker` (`_create_reminders`,
  `_get_pending_reminders`, `_send_push_notification`,
  `_mark_reminder_sent`, `_handle_push_failure`).

Modelling conventions:

* Python strings are Lean `String`s, handled character-wise through
  `String.data`; the inputs of the repository are ASCII, so `\d`, `[a-z]`
  with `re.IGNORECASE`, `.lower()` and `.strip()` are embedded with their
  ASCII meanings.
* The regex scans are embedded as explicit left-to-right scanners with the
  same greedy/backtracking behaviour as the patterns of the source
  (`findall` is non-overlapping and advances past each match, `search`
  returns the leftmost match, alternatives are tried in written order).
* Confidence scores are naturals counting tenths (`0.2 ↦ 2`, `0.4 ↦ 4`,
  `0.7 ↦ 7`, `0.8 ↦ 8`).  The only float operations of the source are sums
  of the literals 0.2 and 0.4 compared against 0.4 and 0.7; IEEE doubles
  give exactly the same comparison results as these rationals (0.2 + 0.2
  equals the double literal 0.4, and all other sums stay well clear of the
  thresholds), so the Nat embedding is faithful.
* Instants (the worker's datetimes) are `Int` minutes; the offsets of
  `_create_reminders` are 1440, 180 and 30 minutes.
* `list(set(dates))` in `_extract_dates` produces the distinct dates in a
  Python-set iteration order that is unspecified (string hashing is
  randomised per process).  The embedding therefore passes the
  deduplication step as a parameter `f` constrained by `PySetFun`:
  any function producing a duplicate-free list with the same members.
-/

/-! ## Python string primitives -/

/-- ASCII `\d` (the repository's inputs are ASCII). -/
def pyIsDigit (c : Char) : Bool := '0' ≤ c ∧ c ≤ '9'

/-- ASCII `[a-zA-Z]`, i.e. `[a-z]` under `re.IGNORECASE`. -/
def pyIsAlpha (c : Char) : Bool := ('a' ≤ c ∧ c ≤ 'z') ∨ ('A' ≤ c ∧ c ≤ 'Z')

/-- ASCII `str.lower` on one character. -/
def pyLowerChar (c : Char) : Char :=
  if 'A' ≤ c ∧ c ≤ 'Z' then Char.ofNat (c.toNat + 32) else c

/-- Python whitespace (`str.strip` default set / regex `\s`). -/
def pyWS (c : Char) : Bool :=
  c = ' ' ∨ c = '\t' ∨ c = '\n' ∨ c = '\r' ∨ c = '\x0b' ∨ c = '\x0c'

/-- `str.strip()` on a character list. -/
def stripChars (cs : List Char) : List Char :=
  ((cs.dropWhile pyWS).reverse.dropWhile pyWS).reverse

/-- `str.strip()`. -/
def pyStrip (s : String) : String := String.mk (stripChars s.data)

/-- `str.lower()`. -/
def pyLower (s : String) : String := String.mk (s.data.map pyLowerChar)

/-- Numeric value of a digit string. -/
def natOfDigits (cs : List Char) : Nat :=
  cs.foldl (fun n c => n * 10 + (c.toNat - 48)) 0

/-! ## Date pattern scanners (`RegexParser.DATE_PATTERNS`) -/

/-- Take exactly `n` digits (`\d{n}`), returning them and the rest. -/
def takeExactDigits : Nat → List Char → Option (List Char × List Char)
  | 0, cs => some ([], cs)
  | _ + 1, [] => none
  | n + 1, c :: cs =>
      if pyIsDigit c then
        match takeExactDigits n cs with
        | some (ds, rest) => some (c :: ds, rest)
        | none => none
      else none

/-- Greedy `\d{1,2}` with backtracking: the candidate splits in the order a
regex engine tries them (two digits first, then one). -/
def take12 (cs : List Char) : List (List Char × List Char) :=
  match cs with
  | c1 :: c2 :: rest =>
      if pyIsDigit c1 then
        if pyIsDigit c2 then [([c1, c2], rest), ([c1], c2 :: rest)]
        else [([c1], c2 :: rest)]
      else []
  | [c1] => if pyIsDigit c1 then [([c1], [])] else []
  | [] => []

/-- Anchored match of `(\d{4}-\d{2}-\d{2})` (ISO date pattern). -/
def matchIsoAt (cs : List Char) : Option (List Char × List Char) :=
  match takeExactDigits 4 cs with
  | some (y, '-' :: r1) =>
      match takeExactDigits 2 r1 with
      | some (mo, '-' :: r2) =>
          match takeExactDigits 2 r2 with
          | some (dy, r3) => some (y ++ '-' :: mo ++ '-' :: dy, r3)
          | none => none
      | _ => none
  | _ => none

/-- Anchored match of `(\d{1,2}sep\d{1,2}sep\d{4})` for `sep` being `/` or
`-` (the MM/DD/YYYY and MM-DD-YYYY patterns), with the engine's greedy
backtracking on the `{1,2}` repetitions. -/
def matchSepAt (sep : Char) (cs : List Char) : Option (List Char × List Char) :=
  (take12 cs).findSome? fun mo =>
    match mo.2 with
    | s1 :: r1 =>
        if s1 = sep then
          (take12 r1).findSome? fun dy =>
            match dy.2 with
            | s2 :: r2 =>
                if s2 = sep then
                  match takeExactDigits 4 r2 with
                  | some (yr, r3) => some (mo.1 ++ sep :: dy.1 ++ sep :: yr, r3)
                  | none => none
                else none
            | [] => none
        else none
    | [] => none

/-- Case-insensitive literal prefix: returns the matched original characters
and the rest. -/
def ciPrefixDrop : List Char → List Char → Option (List Char × List Char)
  | [], cs => some ([], cs)
  | _ :: _, [] => none
  | a :: ps, c :: cs =>
      if pyLowerChar c = pyLowerChar a then
        match ciPrefixDrop ps cs with
        | some (m, r) => some (c :: m, r)
        | none => none
      else none

/-- The month alternatives of the fourth date pattern, in written order. -/
def MONTH_ABBRS : List String :=
  ["Jan", "Feb", "Mar", "Apr", "May", "Jun",
   "Jul", "Aug", "Sep", "Oct", "Nov", "Dec"]

/-- Anchored match of
`((?:Jan|...|Dec)[a-z]* \d{1,2},? \d{4})` with `re.IGNORECASE`:
month alternative, greedy letter run, space, greedy 1–2 digit day, optional
comma (greedy, so tried first), space, 4-digit year. -/
def matchMonthAt (cs : List Char) : Option (List Char × List Char) :=
  MONTH_ABBRS.findSome? fun ab =>
    match ciPrefixDrop ab.data cs with
    | none => none
    | some (m0, r0) =>
        let letters := r0.takeWhile pyIsAlpha
        match r0.drop letters.length with
        | ' ' :: r2 =>
            (take12 r2).findSome? fun dy =>
              let withComma :=
                match dy.2 with
                | ',' :: ' ' :: r4 =>
                    match takeExactDigits 4 r4 with
                    | some (yr, r5) =>
                        some (m0 ++ letters ++ ' ' :: dy.1 ++ ',' :: ' ' :: yr, r5)
                    | none => none
                | _ => none
              match withComma with
              | some res => some res
              | none =>
                  match dy.2 with
                  | ' ' :: r4 =>
                      match takeExactDigits 4 r4 with
                      | some (yr, r5) =>
                          some (m0 ++ letters ++ ' ' :: dy.1 ++ ' ' :: yr, r5)
                      | none => none
                  | _ => none
        | _ => none

/-- `re.findall` driver: scan left to right, non-overlapping, advancing past
each match.  The fuel is the remaining text length plus one, so it never
runs out. -/
def findAllAux (step : List Char → Option (List Char × List Char)) :
    Nat → List Char → List String
  | 0, _ => []
  | _ + 1, [] => []
  | fuel + 1, c :: cs =>
      match step (c :: cs) with
      | some (m, rest) => String.mk m :: findAllAux step fuel rest
      | none => findAllAux step fuel cs

/-- `re.findall(pattern, text)` for an anchored matcher `step`. -/
def findAll (step : List Char → Option (List Char × List Char)) (s : String) :
    List String :=
  findAllAux step (s.data.length + 1) s.data

/-! ## Date normalisation (`_extract_dates` normalisation branch) -/

/-- Gregorian leap year, as `datetime` uses. -/
def isLeap (y : Nat) : Bool := (y % 4 = 0 ∧ y % 100 ≠ 0) ∨ y % 400 = 0

/-- Days in a month, as `datetime` validates. -/
def daysInMonth (y m : Nat) : Nat :=
  if m = 2 then (if isLeap y then 29 else 28)
  else if m = 4 ∨ m = 6 ∨ m = 9 ∨ m = 11 then 30
  else 31

/-- `%02d` zero padding of `strftime`. -/
def pad2 (n : Nat) : String := if n < 10 then "0" ++ toString n else toString n

/-- `%Y` zero padding of `strftime` (four digits). -/
def pad4 (n : Nat) : String :=
  if n < 10 then "000" ++ toString n
  else if n < 100 then "00" ++ toString n
  else if n < 1000 then "0" ++ toString n
  else toString n

/-- `dt.strftime('%Y-%m-%d')`. -/
def formatYMD (y mo dy : Nat) : String :=
  pad4 y ++ "-" ++ pad2 mo ++ "-" ++ pad2 dy

/-- `datetime.strptime(m, '%m sep %d sep %Y')` followed by
`strftime('%Y-%m-%d')`: parses the whole string, validates the month, the
day against the month length, and `datetime`'s MINYEAR, and returns the
normalised date; `none` is the `ValueError` branch. -/
def strptimeMDY (sep : Char) (m : String) : Option String :=
  let cs := m.data
  let mo := cs.takeWhile pyIsDigit
  match cs.drop mo.length with
  | s1 :: r1 =>
      if s1 = sep ∧ (mo.length = 1 ∨ mo.length = 2) then
        let dy := r1.takeWhile pyIsDigit
        match r1.drop dy.length with
        | s2 :: r2 =>
            if s2 = sep ∧ (dy.length = 1 ∨ dy.length = 2) then
              let yr := r2.takeWhile pyIsDigit
              if yr.length = 4 ∧ r2.drop 4 = [] then
                let y := natOfDigits yr
                let mv := natOfDigits mo
                let dv := natOfDigits dy
                if 1 ≤ y ∧ 1 ≤ mv ∧ mv ≤ 12 ∧ 1 ≤ dv ∧ dv ≤ daysInMonth y mv then
                  some (formatYMD y mv dv)
                else none
              else none
            else none
        | [] => none
      else none
  | [] => none

/-- The full month names `%B` accepts, with their numbers, longest first, as
CPython's `TimeRE` orders its alternation. -/
def MONTHS_LONGEST_FIRST : List (String × Nat) :=
  [("september", 9), ("november", 11), ("december", 12), ("february", 2),
   ("january", 1), ("october", 10), ("august", 8), ("march", 3),
   ("april", 4), ("june", 6), ("july", 7), ("may", 5)]

/-- `datetime.strptime(m, '%B %d, %Y')` followed by `strftime('%Y-%m-%d')`:
case-insensitive full month name, space, 1–2 digit day, the literal comma
and space, 4-digit year, end of string; validated like `datetime`. -/
def strptimeBdY (m : String) : Option String :=
  let cs := m.data.map pyLowerChar
  MONTHS_LONGEST_FIRST.findSome? fun mn =>
    if mn.1.data.isPrefixOf cs then
      match cs.drop mn.1.data.length with
      | ' ' :: r1 =>
          (take12 r1).findSome? fun dy =>
            match dy.2 with
            | ',' :: ' ' :: r2 =>
                match takeExactDigits 4 r2 with
                | some (yr, []) =>
                    let y := natOfDigits yr
                    let dv := natOfDigits dy.1
                    if 1 ≤ y ∧ 1 ≤ dv ∧ dv ≤ daysInMonth y mn.2 then
                      some (formatYMD y mn.2 dv)
                    else none
                | _ => none
            | _ => none
      | _ => none
    else none

/-- `re.match(r'\d{4}-\d{2}-\d{2}', match)`: anchored prefix shape test. -/
def isoShape (cs : List Char) : Bool :=
  match cs with
  | a :: b :: c :: d :: '-' :: e :: g :: '-' :: h :: i :: _ =>
      pyIsDigit a && pyIsDigit b && pyIsDigit c && pyIsDigit d &&
      pyIsDigit e && pyIsDigit g && pyIsDigit h && pyIsDigit i
  | _ => false

/-- The `try`/`elif` normalisation chain of `_extract_dates`: ISO-shaped
matches are appended as they are, matches containing `/` go through
`%m/%d/%Y`, then matches containing `-` through `%m-%d-%Y`, and the rest
through `%B %d, %Y`; a `ValueError` (`none`) drops the match. -/
def normalizeDateMatch (m : String) : Option String :=
  if isoShape m.data then some m
  else if m.data.contains '/' then strptimeMDY '/' m
  else if m.data.contains '-' then strptimeMDY '-' m
  else strptimeBdY m

/-- `_extract_dates` before its final `list(set(dates))`: the normalised
matches of the four date patterns, in pattern order then text order, with
duplicates still present. -/
def extract_dates_scan (text : String) : List String :=
  (findAll matchIsoAt text).filterMap normalizeDateMatch
  ++ (findAll (matchSepAt '/') text).filterMap normalizeDateMatch
  ++ (findAll (matchSepAt '-') text).filterMap normalizeDateMatch
  ++ (findAll matchMonthAt text).filterMap normalizeDateMatch

/-! ## Location and prep-item extraction -/

/-- `\s*([^\n\r]+)` after a matched label: greedy whitespace run with
backtracking, then a greedy non-empty run of characters other than CR/LF. -/
def capAfterWs (cs : List Char) : Option (List Char) :=
  let nWS := (cs.takeWhile pyWS).length
  (List.range (nWS + 1)).findSome? fun i =>
    let rest := cs.drop (nWS - i)
    let cap := rest.takeWhile fun c => c ≠ '\n' ∧ c ≠ '\r'
    if cap.isEmpty then none else some cap

/-- `re.search` driver for the location / prep patterns: leftmost position
wins; at each position the label alternatives are tried in written order,
each followed by `\s*([^\n\r]+)`; returns the raw capture. -/
def searchCaptureAux (labels : List (List Char)) :
    Nat → List Char → Option (List Char)
  | 0, _ => none
  | _ + 1, [] => none
  | fuel + 1, c :: cs =>
      match labels.findSome? (fun lab => (ciPrefixDrop lab (c :: cs)).bind
          fun pr => capAfterWs pr.2) with
      | some cap => some cap
      | none => searchCaptureAux labels fuel cs

/-- `re.search` of `(?:label1|label2|...)\s*([^\n\r]+)` with
`re.IGNORECASE`, returning the capture group. -/
def searchCapture (labels : List String) (text : String) : Option String :=
  (searchCaptureAux (labels.map String.data) (text.data.length + 1)
    text.data).map String.mk

/-- `_extract_location`: the two `LOCATION_PATTERNS` in order, first match's
capture group, stripped (possibly empty). -/
def extract_location (text : String) : Option String :=
  match searchCapture ["location:", "venue:", "address:", "at:"] text with
  | some cap => some (pyStrip cap)
  | none =>
      match searchCapture ["held at", "taking place at", "located at"] text with
      | some cap => some (pyStrip cap)
      | none => none

/-- `re.split(r'[,;•\n\r]+', items_text)` delimiters. -/
def isSplitDelim (c : Char) : Bool :=
  c = ',' ∨ c = ';' ∨ c = '•' ∨ c = '\n' ∨ c = '\r'

/-- Pieces between delimiter runs (edge empties are dropped here; the source
drops them through its `if item.strip()` filter). -/
def splitDelimsAux : Nat → List Char → List (List Char)
  | 0, _ => []
  | _ + 1, [] => []
  | fuel + 1, c :: cs =>
      if isSplitDelim c then splitDelimsAux fuel cs
      else
        let piece := (c :: cs).takeWhile fun x => ¬ isSplitDelim x
        piece :: splitDelimsAux fuel ((c :: cs).dropWhile fun x => ¬ isSplitDelim x)

/-- Split on `[,;•\n\r]+`, strip each piece, keep the non-empty ones — the
comprehension `[item.strip() for item in split_items if item.strip()]`. -/
def pySplitItems (s : String) : List String :=
  ((splitDelimsAux (s.data.length + 1) s.data).map
    fun p => String.mk (stripChars p)).filter fun x => x ≠ ""

/-- One `PREP_PATTERNS` entry: `re.search`, then split the stripped capture. -/
def prepFrom (labels : List String) (text : String) : List String :=
  match searchCapture labels text with
  | some cap => pySplitItems (pyStrip cap)
  | none => []

/-- `_extract_prep_items`: all three patterns contribute (the loop extends
`items` for each pattern's first match); `None` when nothing was found. -/
def extract_prep_items (text : String) : Option (List String) :=
  let items :=
    prepFrom ["bring:", "pack:", "remember to bring:", "don\x27t forget:"] text
    ++ prepFrom ["items needed:", "required items:", "what to bring:"] text
    ++ prepFrom ["prep:", "preparation:"] text
  if items.isEmpty then none else some items

/-! ## Subject cleaning -/

/-- The prefixes `_clean_subject` strips, in written order. -/
def SUBJECT_TAGS : List String := ["re:", "fwd:", "fw:", "[reminder]", "[event]"]

/-- One iteration of `_clean_subject`'s loop: if the lowercased current
subject starts with the tag, drop the tag and strip. -/
def cleanSubjectStep (subj : List Char) (tag : String) : List Char :=
  if tag.data.isPrefixOf (subj.map pyLowerChar) then
    stripChars (subj.drop tag.data.length)
  else subj

/-- `_clean_subject`: a single pass over the tag list (the loop iterates the
tag list once, updating the subject as it goes), then a final strip. -/
def clean_subject (subject : String) : String :=
  String.mk (stripChars (SUBJECT_TAGS.foldl cleanSubjectStep subject.data))

/-! ## `ParsedEvent` and `RegexParser.parse` -/

/-- `ParsedEvent` dataclass.  `title` is an `Option` because the Ollama path
can store a JSON `null` in it; the regex path always stores a string.
`confidence` counts tenths. -/
structure ParsedEvent where
  title : Option String
  start_ts : String
  end_ts : String
  location : Option String
  prep_items : Option (List String)
  confidence : Nat
  child_id : Option String
deriving DecidableEq

/-- Python truthiness of an optional string (`None` and `""` are falsy). -/
def truthyOptStr (o : Option String) : Option String :=
  match o with
  | some s => if s = "" then none else some s
  | none => none

/-- Python truthiness of an optional list (`None` and `[]` are falsy). -/
def truthyOptList (o : Option (List String)) : Option (List String) :=
  match o with
  | some l => if l = [] then none else some l
  | none => none

/-- A valid outcome of Python's `list(set(dates))`: a duplicate-free list
with exactly the members of the input, in an unspecified order (string
hashing is randomised per process, so the order is not a function of the
input). -/
def PySetFun (f : List String → List String) : Prop :=
  ∀ l : List String, (f l).Nodup ∧ ∀ s : String, s ∈ f l ↔ s ∈ l

/-- One admissible `list(set(·))`: distinct elements, keeping last
occurrences. -/
def pyDedup : List String → List String := fun l => l.dedup

/-- Another admissible `list(set(·))`: the same distinct elements in the
opposite order. -/
def revDedup : List String → List String := fun l => l.dedup.reverse

/-- The additive confidence accumulation of `RegexParser.parse` in tenths:
title `+0.2`, dates `+0.4`, location `+0.2`, prep items `+0.2`, each added
when the extracted value is truthy. -/
def regex_confidence (f : List String → List String) (body subject : String) :
    Nat :=
  (if clean_subject subject = "" then 0 else 2)
  + (if f (extract_dates_scan body) = [] then 0 else 4)
  + (if truthyOptStr (extract_location body) = none then 0 else 2)
  + (if truthyOptList (extract_prep_items body) = none then 0 else 2)

/-- `RegexParser.parse(email_body, subject)`, parameterised by the
`list(set(·))` order `f`.  `parsed_data` gains `title` when the cleaned
subject is truthy, `start_ts`/`end_ts` when dates were found (`dates[0]`
and `dates[1] if len(dates) > 1 else dates[0]`), `location` and
`prep_items` when truthy.  With confidence `≥ 0.4` the source builds
`ParsedEvent(**parsed_data, confidence=confidence)`, which raises
`TypeError` — caught, returning `(None, 0.0)` — exactly when the required
fields `title` or `start_ts`/`end_ts` are missing; below the threshold it
returns `(None, confidence)`. -/
def RegexParser_parse (f : List String → List String) (body subject : String) :
    Option ParsedEvent × Nat :=
  if 4 ≤ regex_confidence f body subject then
    match f (extract_dates_scan body) with
    | [] => (none, 0)
    | d1 :: ds =>
        if clean_subject subject = "" then (none, 0)
        else
          (some { title := some (clean_subject subject),
                  start_ts := d1,
                  end_ts := ds.headD d1,
                  location := truthyOptStr (extract_location body),
                  prep_items := truthyOptList (extract_prep_items body),
                  confidence := regex_confidence f body subject,
                  child_id := none },
           regex_confidence f body subject)
  else (none, regex_confidence f body subject)

/-! ## `EventParser._parse_with_ollama` -/

/-- A JSON object field as `dict.get` sees it: absent key (`none`), present
`null` (`some none`), or present string (`some (some s)`). -/
abbrev JsonField := Option (Option String)

/-- The JSON object of the prompt contract, with each field absent, null,
or a value. -/
structure OllamaData where
  title : JsonField
  start_date : JsonField
  start_time : JsonField
  end_date : JsonField
  end_time : JsonField
  location : JsonField
  prep_items : Option (Option (List String))
deriving DecidableEq

/-- Outcome of the Ollama call as `_parse_with_ollama` distinguishes it:
a reply whose body is valid JSON, a reply that is not valid JSON
(`json.JSONDecodeError`), or a raised transport error (both of the latter
are caught and yield `None`). -/
inductive OllamaResponse where
  | valid (d : OllamaData)
  | invalid
  | failed
deriving DecidableEq

/-- How an f-string renders a `dict.get` result: `str(None)` is `"None"`. -/
def pyRepr (v : Option String) : String :=
  match v with
  | some s => s
  | none => "None"

/-- `_parse_with_ollama`: `None` on invalid JSON or a raised error;
otherwise
`start_ts = f"{get('start_date')}T{get('start_time', '00:00')}:00"` and
`end_ts = f"{get('end_date', get('start_date'))}T{get('end_time', get('start_time', '23:59'))}:00"`,
title defaulting to `'Untitled Event'`, confidence fixed at `0.8`. -/
def parse_with_ollama : OllamaResponse → Option ParsedEvent
  | OllamaResponse.invalid => none
  | OllamaResponse.failed => none
  | OllamaResponse.valid d =>
      some { title := d.title.getD (some "Untitled Event"),
             start_ts := pyRepr (d.start_date.getD none) ++ "T"
               ++ pyRepr (d.start_time.getD (some "00:00")) ++ ":00",
             end_ts := pyRepr (d.end_date.getD (d.start_date.getD none)) ++ "T"
               ++ pyRepr (d.end_time.getD (d.start_time.getD (some "23:59"))) ++ ":00",
             location := d.location.getD none,
             prep_items := d.prep_items.getD none,
             confidence := 8,
             child_id := none }

/-! ## `EventParser` coordinator (`_insert_event`, `_process_email`,
`parse_queue`) -/

/-- `EmailRecord` dataclass (row of `inbound_emails`). -/
structure EmailRecord where
  id : String
  user_id : String
  raw_body : String
  subject : String
  from_email : String
  received_at : String
  processed : Bool
deriving DecidableEq

/-- The row `_insert_event` builds for the `events` table. -/
structure EventRow where
  user_id : String
  source_msg_id : String
  status : String
  title : Option String
  start_ts : Option String
  end_ts : Option String
  location : Option String
  prep_items : Option (List String)
  child_id : Option String
deriving DecidableEq

/-- The default of `_insert_event`'s `status` parameter. -/
def INSERT_STATUS_DEFAULT : String := "upcoming"

/-- `_insert_event(email, parsed_event, status)`: the inserted row.  With a
parsed event the parsed fields are stored; without one the fallback data
for unparseable emails is used (`"Review: " + subject`, now-timestamps). -/
def insert_event (nowIso : String) (email : EmailRecord)
    (pe : Option ParsedEvent) (status : String) : EventRow :=
  match pe with
  | some p =>
      { user_id := email.user_id, source_msg_id := email.id, status := status,
        title := p.title, start_ts := some p.start_ts, end_ts := some p.end_ts,
        location := p.location, prep_items := p.prep_items,
        child_id := p.child_id }
  | none =>
      { user_id := email.user_id, source_msg_id := email.id, status := status,
        title := some ("Review: " ++ email.subject),
        start_ts := some nowIso, end_ts := some nowIso,
        location := none, prep_items := none, child_id := none }

/-- The observable store writes of one message's processing. -/
inductive StoreAction where
  | insertEvent (row : EventRow)
  | markProcessed (success : Bool)
deriving DecidableEq

/-- One attempt of `_process_email`'s retry loop, when no store exception
interrupts it: the duplicate check short-circuits, otherwise the regex
parse runs, Ollama replaces its result when confidence `< 0.7`, and either
the parsed event (with the resolved child id, default status) or a
`needs_review` placeholder is inserted before the message is marked
processed. -/
def processEmailAttempt (f : List String → List String) (nowIso : String)
    (email : EmailRecord) (hasExisting : Bool) (resp : OllamaResponse)
    (childId : Option String) : List StoreAction :=
  if hasExisting then [StoreAction.markProcessed true]
  else
    let rc := RegexParser_parse f email.raw_body email.subject
    let pe := if rc.2 < 7 then parse_with_ollama resp else rc.1
    match pe with
    | some ev =>
        [StoreAction.insertEvent (insert_event nowIso email
            (some { ev with child_id := childId }) INSERT_STATUS_DEFAULT),
         StoreAction.markProcessed true]
    | none =>
        [StoreAction.insertEvent (insert_event nowIso email none "needs_review"),
         StoreAction.markProcessed true]

/-- The retry loop of `_process_email` (`max_retries = 3`): each attempt
either completes with its action trace (`some acts`) or raises (`none`,
before reaching its mark — the mark is the attempt's final store write and
swallows its own errors).  On the final attempt's exception the message is
marked processed with `success=False` and the exception is re-raised
(second component `true`). -/
def retryLoop : List (Option (List StoreAction)) → List StoreAction × Bool
  | [] => ([], false)
  | some acts :: _ => (acts, false)
  | none :: rest =>
      match rest with
      | [] => ([StoreAction.markProcessed false], true)
      | _ :: _ => retryLoop rest

/-- One message inside `parse_queue`'s batch loop: `_process_email` runs,
and if it re-raises, the `except` handler marks the message processed with
`success=False` and moves on. -/
def processMessage (attempts : List (Option (List StoreAction))) : List StoreAction :=
  (retryLoop attempts).1
  ++ (if (retryLoop attempts).2 then [StoreAction.markProcessed false] else [])

/-- `parse_queue` over one fetched batch: the messages are processed
sequentially, each yielding its own action trace; no exception crosses
from one message to the next. -/
def parse_queue_batch (batch : List (List (Option (List StoreAction)))) :
    List (List StoreAction) :=
  batch.map processMessage

/-- Whether an action is a `_mark_email_processed` call. -/
def isMark (a : StoreAction) : Bool :=
  match a with
  | StoreAction.markProcessed _ => true
  | _ => false

/-- Number of `_mark_email_processed` calls in a trace. -/
def markCount (l : List StoreAction) : Nat := (l.filter isMark).length

/-! ## `ReminderWorker`: reminder creation -/

/-- `EventRecord` dataclass of the worker.  Instants are `Int` minutes
(the worker parses `start_ts` into a timezone-aware `datetime`; only
comparisons and fixed offsets are applied to it). -/
structure EventRecord where
  id : String
  user_id : String
  child_id : Option String
  title : String
  start_ts : Int
  end_ts : Int
  location : Option String
  prep_items : Option (List String)
  status : String
  google_calendar_id : Option String
deriving DecidableEq

/-- `ReminderRecord` dataclass / `reminders` row. -/
structure Reminder where
  id : String
  event_id : String
  user_id : String
  notify_at : Int
  message : String
  push_token : Option String
  sent_at : Option Int
  status : String
  retry_count : Nat
  error_message : Option String
deriving DecidableEq

/-- The three candidate reminder offsets of `_create_reminders`:
24 hours, 3 hours, 30 minutes before the start, with their descriptions. -/
def reminder_times (start : Int) : List (Int × String) :=
  [(start - 1440, "24 hours"), (start - 180, "3 hours"),
   (start - 30, "30 minutes")]

/-- The message string built per reminder, with the location appended when
truthy. -/
def reminder_message (e : EventRecord) (desc : String) : String :=
  let m := "Reminder: " ++ e.title ++ " starts in " ++ desc
  match e.location with
  | some loc => if loc = "" then m else m ++ " at " ++ loc
  | none => m

/-- `_create_reminders(event)` at instant `now` with the user's current
push-token snapshot: candidates at or before `now` are skipped
(`if notify_time <= datetime.utcnow(): continue`); the rest become pending
rows with `retry_count = 0`. -/
def create_reminders (e : EventRecord) (now : Int) (push_token : Option String) :
    List Reminder :=
  (reminder_times e.start_ts).filterMap fun td =>
    if td.1 ≤ now then none
    else some { id := "", event_id := e.id, user_id := e.user_id,
                notify_at := td.1, message := reminder_message e td.2,
                push_token := push_token, sent_at := none,
                status := "pending", retry_count := 0, error_message := none }

/-! ## `ReminderWorker`: push dispatch -/

/-- Python truthiness of an optional string as a `Bool`. -/
def pyTruthy (o : Option String) : Bool :=
  match o with
  | some s => s ≠ ""
  | none => false

/-- `_mark_reminder_sent(reminder_id, error_message)`: one update setting
`sent_at_ts` to now and `status` to `'sent' if not error_message else
'failed'`, recording the error message when truthy. -/
def mark_reminder_sent (now : Int) (error_message : Option String)
    (r : Reminder) : Reminder :=
  { r with sent_at := some now,
           status := if pyTruthy error_message then "failed" else "sent",
           error_message := if pyTruthy error_message then error_message
                            else r.error_message }

/-- The filter of `_get_pending_reminders`:
`notify_at_ts <= now`, `sent_at_ts` unset, `status = 'pending'`. -/
def is_pending_reminder (now : Int) (r : Reminder) : Bool :=
  decide (r.notify_at ≤ now) && decide (r.sent_at = none)
    && decide (r.status = "pending")

/-- `_handle_push_failure`: increment the retry count; at 5 mark failed
with the error, otherwise record the error and leave the status for the
next poll. -/
def handle_push_failure (r : Reminder) (err : String) : Reminder :=
  if 5 ≤ r.retry_count + 1 then
    { r with status := "failed", error_message := some err,
             retry_count := r.retry_count + 1 }
  else
    { r with retry_count := r.retry_count + 1, error_message := some err }

/-- What the push provider did for one send call. -/
inductive PushResult where
  | success
  | notSuccess (details : String)
  | deviceNotRegistered
  | serverError (msg : String)
  | otherError (msg : String)
deriving DecidableEq

/-- How `_send_push_notification` returns to its caller: either it called
`_mark_reminder_sent` with the given note and returned, or it raised a
`PushNotificationError` that the batch loop routes to
`_handle_push_failure`. -/
inductive SendOutcome where
  | marked (error_message : Option String)
  | raised (msg : String)
deriving DecidableEq

/-- `_send_push_notification(reminder)`: a missing token marks the reminder
with the note `"No push token"`; otherwise a successful publish marks it
with no note; `DeviceNotRegisteredError` marks it with
`"Device not registered"`; every other outcome raises (the non-success
response raises `PushNotificationError` inside the `try`, re-wrapped by the
generic handler). -/
def send_push_notification (r : Reminder) (pr : PushResult) : SendOutcome :=
  match r.push_token with
  | none => SendOutcome.marked (some "No push token")
  | some _ =>
      match pr with
      | PushResult.success => SendOutcome.marked none
      | PushResult.deviceNotRegistered =>
          SendOutcome.marked (some "Device not registered")
      | PushResult.notSuccess details =>
          SendOutcome.raised ("Failed to send push notification: "
            ++ "Push notification failed: " ++ details)
      | PushResult.serverError msg =>
          SendOutcome.raised ("Push server error: " ++ msg)
      | PushResult.otherError msg =>
          SendOutcome.raised ("Failed to send push notification: " ++ msg)

/-- One reminder inside `process_push_notifications`: the send either marks
the reminder, or its exception is caught and `_handle_push_failure`
applies the retry bookkeeping. -/
def process_reminder (now : Int) (r : Reminder) (pr : PushResult) : Reminder :=
  match send_push_notification r pr with
  | SendOutcome.marked em => mark_reminder_sent now em r
  | SendOutcome.raised msg => handle_push_failure r msg

/-! ## Helper lemmas -/

/-- `fun l => l.dedup` is an admissible `list(set(·))` outcome. -/
theorem pySetFun_pyDedup : PySetFun pyDedup := by
  intro l
  exact ⟨l.nodup_dedup, fun s => List.mem_dedup⟩

/-- `fun l => l.dedup.reverse` is an admissible `list(set(·))` outcome. -/
theorem pySetFun_revDedup : PySetFun revDedup := by
  intro l
  refine ⟨List.nodup_reverse.mpr l.nodup_dedup, fun s => ?_⟩
  simp [revDedup, List.mem_reverse, List.mem_dedup]

/-- Any admissible `list(set(·))` is the identity on lists whose members
are all one given element. -/
theorem pySetFun_const {f : List String → List String} (hf : PySetFun f)
    {l : List String} {a : String} (hne : a ∈ l) (hall : ∀ x ∈ l, x = a) :
    f l = [a] := by
  obtain ⟨hn, hm⟩ := hf l
  cases h : f l with
  | nil =>
      exfalso
      have := (hm a).mpr hne
      rw [h] at this
      exact absurd this (List.not_mem_nil a)
  | cons b t =>
      have hb : b = a := by
        have hbl : b ∈ f l := by rw [h]; exact List.mem_cons_self b t
        exact hall b ((hm b).mp hbl)
      cases t with
      | nil => rw [hb]
      | cons c u =>
          exfalso
          have hcl : c ∈ f l := by
            rw [h]; exact List.mem_cons_of_mem b (List.mem_cons_self c u)
          have hc : c = a := hall c ((hm c).mp hcl)
          rw [h] at hn
          have := hn.not_mem
          rw [hb, hc] at *
          exact this (List.mem_cons_self a u)

/-- In particular any admissible `list(set(·))` fixes singletons. -/
theorem pySetFun_singleton {f : List String → List String} (hf : PySetFun f)
    (a : String) : f [a] = [a] :=
  pySetFun_const hf (List.mem_singleton_self a) (by
    intro x hx
    simpa using hx)

/-- Inversion of `RegexParser.parse`: a returned candidate's `start_ts` and
`end_ts` are the first and second entries of the deduplicated date list,
and the title was truthy. -/
theorem parse_fst_some {f : List String → List String} {body subj : String}
    {ev : ParsedEvent} (h : (RegexParser_parse f body subj).1 = some ev) :
    ∃ d1 ds, f (extract_dates_scan body) = d1 :: ds ∧
      ev.start_ts = d1 ∧ ev.end_ts = ds.headD d1 ∧ clean_subject subj ≠ "" := by
  unfold RegexParser_parse at h
  split at h
  · split at h
    next => simp at h
    next d1 ds heq =>
      split at h
      next => simp at h
      next ht =>
        simp only [Option.some.injEq] at h
        exact ⟨d1, ds, heq, by rw [← h], by rw [← h], ht⟩
  · simp at h

/-- Every completed attempt of `_process_email` marks the message processed
exactly once (the mark is the last store write of each branch). -/
theorem markCount_attempt (f : List String → List String) (nowIso : String)
    (email : EmailRecord) (hasExisting : Bool) (resp : OllamaResponse)
    (childId : Option String) :
    markCount (processEmailAttempt f nowIso email hasExisting resp childId)
      = 1 := by
  unfold processEmailAttempt
  cases hasExisting with
  | true => rfl
  | false =>
      simp only [Bool.false_eq_true, if_false]
      split <;> rfl

/-! ## Concrete inputs used by the claim theorems -/

/-- The round-trip body of the spec's testable property. -/
def body8 : String :=
  "Soccer practice on 2024-03-15.\nLocation: Community Field\nPlease bring: water, cleats"

/-- The round-trip subject of the spec's testable property. -/
def subj8 : String := "Re: Soccer Practice Tomorrow"

/-- The round-trip message as an `inbound_emails` row. -/
def email8 : EmailRecord :=
  { id := "email-1", user_id := "user-1", raw_body := body8, subject := subj8,
    from_email := "coach@example.com",
    received_at := "2024-03-01T09:00:00", processed := false }

/-- The candidate the pattern extractor returns for the round-trip input. -/
def expected8 : ParsedEvent :=
  { title := some "Soccer Practice Tomorrow", start_ts := "2024-03-15",
    end_ts := "2024-03-15", location := some "Community Field",
    prep_items := some ["water", "cleats"], confidence := 10,
    child_id := none }

/-- The event row the coordinator inserts for the round-trip message. -/
def row8 : EventRow :=
  { user_id := "user-1", source_msg_id := "email-1", status := "upcoming",
    title := some "Soccer Practice Tomorrow", start_ts := some "2024-03-15",
    end_ts := some "2024-03-15", location := some "Community Field",
    prep_items := some ["water", "cleats"], child_id := none }

/-- A pending reminder whose stored push token is missing. -/
def rNoTok : Reminder :=
  { id := "rem-1", event_id := "ev-1", user_id := "user-1", notify_at := 50,
    message := "Reminder: Soccer starts in 30 minutes", push_token := none,
    sent_at := none, status := "pending", retry_count := 0,
    error_message := none }

/-- An event starting one hour (60 minutes) from instant 0. -/
def ev1h : EventRecord :=
  { id := "ev-1", user_id := "user-1", child_id := none, title := "Soccer",
    start_ts := 60, end_ts := 120, location := none, prep_items := none,
    status := "pending", google_calendar_id := none }

/-! ## Claims -/

/-- Claim C1 (code bug): the claim says every persisted Event status is
drawn from `{pending, synced, failed, needs_review}` and a successful
parse's event starts at `pending`.  The coordinator, however, inserts the
event of a successfully parsed message with `_insert_event`'s default
status `'upcoming'`, a value outside the documented set — and one the
worker's `status='pending'` query never picks up.  Evaluated on the spec's
own round-trip message. -/
theorem c1_parsed_status_outside_documented_set :
    processEmailAttempt pyDedup "2024-03-01T09:05:00" email8 false
        OllamaResponse.invalid none
      = [StoreAction.insertEvent row8, StoreAction.markProcessed true] ∧
    row8.status = INSERT_STATUS_DEFAULT ∧
    row8.status ∉ (["pending", "synced", "failed", "needs_review"] : List String) := by
  refine ⟨by decide, by decide, by decide⟩

/-- Claim C2 counterexample: for the reminder `rNoTok`, whose push token is
missing, the dispatcher writes status `'failed'`, not `'sent'`
(`_mark_reminder_sent` maps any truthy error note to `'failed'`). -/
theorem c2_counterexample :
    (process_reminder 100 rNoTok PushResult.success).status = "failed" ∧
    ¬ (process_reminder 100 rNoTok PushResult.success).status = "sent" := by
  decide

/-- Claim C2 (amended): for every reminder whose push send hits a terminal
non-retryable condition — missing push token, or device not registered —
the dispatcher marks the reminder through `_mark_reminder_sent` with
status `'failed'` (not `'sent'` as claimed) and an explanatory error note,
sets `sent_at` in the same update, and never increments its retry count or
retries it (the pending-reminder query no longer matches it). -/
theorem c2_terminal_not_retried (r : Reminder) (now now2 : Int)
    (pr : PushResult)
    (h : r.push_token = none ∨ pr = PushResult.deviceNotRegistered) :
    (process_reminder now r pr).status = "failed" ∧
    (process_reminder now r pr).sent_at = some now ∧
    (process_reminder now r pr).retry_count = r.retry_count ∧
    ((process_reminder now r pr).error_message = some "No push token" ∨
      (process_reminder now r pr).error_message = some "Device not registered") ∧
    is_pending_reminder now2 (process_reminder now r pr) = false := by
  cases htok : r.push_token with
  | none =>
      simp [process_reminder, send_push_notification, htok,
        mark_reminder_sent, pyTruthy, is_pending_reminder]
  | some t =>
      rcases h with h | h
      · rw [htok] at h; exact absurd h (by simp)
      · subst h
        simp [process_reminder, send_push_notification, htok,
          mark_reminder_sent, pyTruthy, is_pending_reminder]

/-- Witness for C2's amended theorem at the concrete reminder `rNoTok`. -/
theorem c2_witness :
    (process_reminder 100 rNoTok PushResult.success).status = "failed" ∧
    (process_reminder 100 rNoTok PushResult.success).sent_at = some 100 ∧
    (process_reminder 100 rNoTok PushResult.success).retry_count
      = rNoTok.retry_count ∧
    ((process_reminder 100 rNoTok PushResult.success).error_message
        = some "No push token" ∨
      (process_reminder 100 rNoTok PushResult.success).error_message
        = some "Device not registered") ∧
    is_pending_reminder 200 (process_reminder 100 rNoTok PushResult.success)
      = false :=
  c2_terminal_not_retried rNoTok 100 200 PushResult.success (Or.inl rfl)

/-- Claim C3 counterexample: for the event `ev1h` starting 60 minutes after
the current instant, `_create_reminders` persists exactly one reminder
(the 30-minutes-before candidate lies in the future), not zero as
claimed. -/
theorem c3_counterexample :
    (create_reminders ev1h 0 none).map (fun r => r.notify_at) = [30] ∧
    (create_reminders ev1h 0 none).length = 1 ∧
    ¬ (create_reminders ev1h 0 none).length = 0 := by
  decide

/-- Claim C3 (amended): reminder scheduling computes exactly the three
candidate instants 24 hours, 3 hours and 30 minutes before the start and
drops every candidate at or before the current instant; an event starting
25 hours out gets exactly 3 reminders, but an event starting in 1 hour
gets exactly 1 (the 30-minute candidate is still ahead), not 0. -/
theorem c3_candidate_times (e : EventRecord) (now : Int) (tok : Option String) :
    ((create_reminders e now tok).map fun r => r.notify_at)
        = ((reminder_times e.start_ts).map Prod.fst).filter
            (fun t => !(decide (t ≤ now))) ∧
    (create_reminders { e with start_ts := now + 1500 } now tok).length = 3 ∧
    (create_reminders { e with start_ts := now + 60 } now tok).length = 1 := by
  refine ⟨?_, ?_, ?_⟩
  · by_cases h1 : e.start_ts - 1440 ≤ now <;>
    by_cases h2 : e.start_ts - 180 ≤ now <;>
    by_cases h3 : e.start_ts - 30 ≤ now <;>
    simp [create_reminders, reminder_times, h1, h2, h3]
  · have h1 : ¬ (now + 1500 - 1440 ≤ now) := by omega
    have h2 : ¬ (now + 1500 - 180 ≤ now) := by omega
    have h3 : ¬ (now + 1500 - 30 ≤ now) := by omega
    simp [create_reminders, reminder_times, h1, h2, h3]
  · have h1 : now + 60 - 1440 ≤ now := by omega
    have h2 : now + 60 - 180 ≤ now := by omega
    have h3 : ¬ (now + 60 - 30 ≤ now) := by omega
    simp [create_reminders, reminder_times, h1, h2, h3]

/-- Claim C4 counterexample: with subject `""` and body `"2024-03-15"` the
accumulated confidence is 0.4 (the date check alone), so the claim demands
a candidate; but the `ParsedEvent(**parsed_data, ...)` construction raises
`TypeError` (no title field) and the handler returns `(None, 0.0)` —
no candidate, and a returned confidence of 0 instead of the accumulated
0.4. -/
theorem c4_counterexample :
    regex_confidence pyDedup "2024-03-15" "" = 4 ∧
    (RegexParser_parse pyDedup "2024-03-15" "").1 = none ∧
    (RegexParser_parse pyDedup "2024-03-15" "").2 = 0 := by
  refine ⟨by decide, by decide, by decide⟩

/-- Claim C4 (amended): a candidate is returned iff the accumulated
confidence is `≥ 0.4` *and* both a truthy title and at least one date were
extracted (otherwise the dataclass construction fails); when no candidate
is returned the returned confidence is the accumulated score if it is
below 0.4, and 0.0 if the threshold was met but the construction failed;
when a candidate is returned the returned confidence is the accumulated
score. -/
theorem c4_threshold (f : List String → List String) (body subj : String) :
    ((RegexParser_parse f body subj).1.isSome ↔
      (4 ≤ regex_confidence f body subj ∧ clean_subject subj ≠ "" ∧
        f (extract_dates_scan body) ≠ [])) ∧
    ((RegexParser_parse f body subj).1 = none →
      (RegexParser_parse f body subj).2 =
        if 4 ≤ regex_confidence f body subj then 0
        else regex_confidence f body subj) ∧
    ((RegexParser_parse f body subj).1.isSome →
      (RegexParser_parse f body subj).2 = regex_confidence f body subj) := by
  by_cases hc : 4 ≤ regex_confidence f body subj <;>
  cases hd : f (extract_dates_scan body) <;>
  by_cases ht : clean_subject subj = "" <;>
  simp [RegexParser_parse, hc, hd, ht]

/-- Witness for C4's amended theorem at the round-trip input. -/
theorem c4_witness :
    ((RegexParser_parse pyDedup body8 subj8).1.isSome ↔
      (4 ≤ regex_confidence pyDedup body8 subj8 ∧ clean_subject subj8 ≠ "" ∧
        pyDedup (extract_dates_scan body8) ≠ [])) ∧
    ((RegexParser_parse pyDedup body8 subj8).1 = none →
      (RegexParser_parse pyDedup body8 subj8).2 =
        if 4 ≤ regex_confidence pyDedup body8 subj8 then 0
        else regex_confidence pyDedup body8 subj8) ∧
    ((RegexParser_parse pyDedup body8 subj8).1.isSome →
      (RegexParser_parse pyDedup body8 subj8).2
        = regex_confidence pyDedup body8 subj8) :=
  c4_threshold pyDedup body8 subj8

/-- Claim C5 counterexample: when all three attempts raise, the message is
marked processed twice — once by the retry loop's final-attempt handler
(before re-raising) and once by `parse_queue`'s per-message handler — not
exactly once as claimed. -/
theorem c5_counterexample :
    processMessage [none, none, none]
      = [StoreAction.markProcessed false, StoreAction.markProcessed false] ∧
    markCount (processMessage [none, none, none]) = 2 ∧
    ¬ markCount (processMessage [none, none, none]) = 1 := by
  refine ⟨by decide, by decide, by decide⟩

/-- Claim C5 (amended): every completed attempt of `_process_email` marks
the message processed exactly once, so a message whose processing completes
on some attempt (existing event, successful parse, or review placeholder)
is marked exactly once; a message whose three attempts all raise is marked
twice (final-attempt mark plus the batch handler's mark).  In either case
the error is not propagated: the batch loop processes every message of the
batch. -/
theorem c5_marking (e1 e2 e3 : Option (List StoreAction))
    (h1 : ∀ l, e1 = some l → markCount l = 1)
    (h2 : ∀ l, e2 = some l → markCount l = 1)
    (h3 : ∀ l, e3 = some l → markCount l = 1) :
    markCount (processMessage [e1, e2, e3])
      = (if e1 = none ∧ e2 = none ∧ e3 = none then 2 else 1) ∧
    (∀ (f : List String → List String) (nowIso : String) (email : EmailRecord)
        (ex : Bool) (resp : OllamaResponse) (cid : Option String),
      markCount (processEmailAttempt f nowIso email ex resp cid) = 1) ∧
    (∀ batch : List (List (Option (List StoreAction))),
      (parse_queue_batch batch).length = batch.length) := by
  refine ⟨?_, fun f n em x r c => markCount_attempt f n em x r c,
    fun batch => by simp [parse_queue_batch]⟩
  rcases e1 with _ | l1
  · rcases e2 with _ | l2
    · rcases e3 with _ | l3
      · simp [processMessage, retryLoop]
        decide
      · have := h3 l3 rfl
        simp [processMessage, retryLoop, this]
    · have := h2 l2 rfl
      simp [processMessage, retryLoop, this]
  · have := h1 l1 rfl
    simp [processMessage, retryLoop, this]

/-- Witness for C5's amended theorem: first attempt completes with a trace
containing one mark. -/
theorem c5_witness :
    markCount (processMessage
        [some [StoreAction.markProcessed true], none, none])
      = (if some [StoreAction.markProcessed true]
              = (none : Option (List StoreAction)) ∧
            (none : Option (List StoreAction)) = none ∧
            (none : Option (List StoreAction)) = none
         then 2 else 1) ∧
    (∀ (f : List String → List String) (nowIso : String) (email : EmailRecord)
        (ex : Bool) (resp : OllamaResponse) (cid : Option String),
      markCount (processEmailAttempt f nowIso email ex resp cid) = 1) ∧
    (∀ batch : List (List (Option (List StoreAction))),
      (parse_queue_batch batch).length = batch.length) :=
  c5_marking (some [StoreAction.markProcessed true]) none none
    (by intro l hl; cases hl; decide)
    (fun l hl => Option.noConfusion hl)
    (fun l hl => Option.noConfusion hl)

/-- The two-date body used against claim C6. -/
def body6 : String := "2024-03-15 2024-03-14"

/-- Claim C6 counterexample: the scan finds `2024-03-15` before
`2024-03-14`, but `list(set(dates))` may iterate them in the other order
(`revDedup` is an admissible outcome of Python's randomised set order), in
which case the candidate's start is `2024-03-14` — not the earliest date
by pattern scan order as claimed. -/
theorem c6_counterexample :
    PySetFun revDedup ∧
    extract_dates_scan body6 = ["2024-03-15", "2024-03-14"] ∧
    (RegexParser_parse revDedup body6 "Practice").1 =
      some { title := some "Practice", start_ts := "2024-03-14",
             end_ts := "2024-03-15", location := none, prep_items := none,
             confidence := 6, child_id := none } ∧
    ("2024-03-14" : String) ≠ "2024-03-15" :=
  ⟨pySetFun_revDedup, by decide, by decide, by decide⟩

/-- Claim C6 (amended): the candidate's start and end are the first and
second entries of the de-duplicated date list, whose order is an
unspecified set-iteration order, not the pattern scan order; both always
belong to the scanned dates; when the scan finds exactly one distinct date
the end equals the start; and when it finds two or more distinct dates the
start and end are distinct (but which date becomes the start is
unspecified). -/
theorem c6_dedup_order (body subj : String) (f : List String → List String)
    (hf : PySetFun f) (ev : ParsedEvent)
    (h : (RegexParser_parse f body subj).1 = some ev) :
    ev.start_ts ∈ extract_dates_scan body ∧
    ev.end_ts ∈ extract_dates_scan body ∧
    (∀ d, (∀ x ∈ extract_dates_scan body, x = d) →
      ev.end_ts = ev.start_ts) ∧
    (∀ d1 d2, d1 ∈ extract_dates_scan body → d2 ∈ extract_dates_scan body →
      d1 ≠ d2 → ev.start_ts ≠ ev.end_ts) := by
  obtain ⟨x1, xs, hfl, hst, hen, -⟩ := parse_fst_some h
  obtain ⟨hnodup, hmem⟩ := hf (extract_dates_scan body)
  have hx1f : x1 ∈ f (extract_dates_scan body) := by
    rw [hfl]; exact List.mem_cons_self x1 xs
  have hx1 : x1 ∈ extract_dates_scan body := (hmem x1).mp hx1f
  refine ⟨hst ▸ hx1, ?_, ?_, ?_⟩
  · cases xs with
    | nil => rw [hen]; simpa using hx1
    | cons x2 t =>
        have hx2f : x2 ∈ f (extract_dates_scan body) := by
          rw [hfl]; exact List.mem_cons_of_mem _ (List.mem_cons_self x2 t)
        have hx2 := (hmem x2).mp hx2f
        rw [hen]; simpa using hx2
  · intro d hall
    have hdm : d ∈ extract_dates_scan body := by
      have hxd := hall x1 hx1
      rw [← hxd]; exact hx1
    have hfd : f (extract_dates_scan body) = [d] := pySetFun_const hf hdm hall
    rw [hfl] at hfd
    have hx1d : x1 = d := (List.cons.inj hfd).1
    have hxs : xs = [] := (List.cons.inj hfd).2
    rw [hen, hst, hxs]
    rfl
  · intro d1 d2 hd1 hd2 hne
    cases xs with
    | nil =>
        exfalso
        have h1 : d1 ∈ f (extract_dates_scan body) := (hmem d1).mpr hd1
        have h2 : d2 ∈ f (extract_dates_scan body) := (hmem d2).mpr hd2
        rw [hfl] at h1 h2
        simp at h1 h2
        exact hne (h1.trans h2.symm)
    | cons x2 t =>
        rw [hst, hen]
        simp only [List.headD_cons]
        rw [hfl] at hnodup
        intro heq
        exact hnodup.not_mem (heq ▸ List.mem_cons_self x2 t)

/-- The candidate `pyDedup` yields for `body6`. -/
def ev6p : ParsedEvent :=
  { title := some "Practice", start_ts := "2024-03-15",
    end_ts := "2024-03-14", location := none, prep_items := none,
    confidence := 6, child_id := none }

/-- Witness for C6's amended theorem at `body6` under `pyDedup`. -/
theorem c6_witness :
    ev6p.start_ts ∈ extract_dates_scan body6 ∧
    ev6p.end_ts ∈ extract_dates_scan body6 ∧
    (∀ d, (∀ x ∈ extract_dates_scan body6, x = d) →
      ev6p.end_ts = ev6p.start_ts) ∧
    (∀ d1 d2, d1 ∈ extract_dates_scan body6 → d2 ∈ extract_dates_scan body6 →
      d1 ≠ d2 → ev6p.start_ts ≠ ev6p.end_ts) :=
  c6_dedup_order body6 "Practice" pyDedup pySetFun_pyDedup ev6p (by decide)

/-- Formalisation of claim C7's wording, for comparison with
`_parse_with_ollama`: a missing `start_time` defaults to `00:00`, a
missing `end_time` defaults to the (already defaulted) start time, and a
missing `end_date` defaults to the start date; "missing" covers absent or
null sub-fields. -/
def claimTimestamps (d : OllamaData) : String × String :=
  let sd : Option String := d.start_date.getD none
  let st : String := (d.start_time.getD none).getD "00:00"
  let et : String := (d.end_time.getD none).getD st
  let ed : Option String :=
    match d.end_date.getD none with
    | some x => some x
    | none => sd
  (pyRepr sd ++ "T" ++ st ++ ":00", pyRepr ed ++ "T" ++ et ++ ":00")

/-- A generative reply with only `start_date` present. -/
def c7dict : OllamaData :=
  { title := none, start_date := some (some "2024-03-15"), start_time := none,
    end_date := none, end_time := none, location := none, prep_items := none }

/-- Claim C7 counterexample: with both times and the end date missing, the
code ends the event at `23:59` (the bare fallback of
`data.get('end_time', data.get('start_time', '23:59'))`), while the claim's
defaults make the end time equal the defaulted start time `00:00`. -/
theorem c7_counterexample :
    (parse_with_ollama (OllamaResponse.valid c7dict)).map
        (fun pe => (pe.start_ts, pe.end_ts))
      = some ("2024-03-15T00:00:00", "2024-03-15T23:59:00") ∧
    claimTimestamps c7dict
      = ("2024-03-15T00:00:00", "2024-03-15T00:00:00") ∧
    ¬ ((parse_with_ollama (OllamaResponse.valid c7dict)).map
        (fun pe => (pe.start_ts, pe.end_ts)) = some (claimTimestamps c7dict)) := by
  refine ⟨by decide, by decide, by decide⟩

/-- Claim C7 (amended): a missing `start_time` defaults to `00:00`; a
missing `end_date` defaults to the start date; a missing `end_time`
defaults to the `start_time` field when that field is present, and to
`23:59` — not the defaulted start time `00:00` — when `start_time` is also
missing. -/
theorem c7_time_defaults (d : OllamaData) (pe : ParsedEvent)
    (h : parse_with_ollama (OllamaResponse.valid d) = some pe) :
    (d.start_time = none →
      pe.start_ts = pyRepr (d.start_date.getD none) ++ "T00:00:00") ∧
    (∀ t, d.start_time = some (some t) →
      pe.start_ts = pyRepr (d.start_date.getD none) ++ "T" ++ t ++ ":00") ∧
    (∀ t, d.end_date = none → d.end_time = some (some t) →
      pe.end_ts = pyRepr (d.start_date.getD none) ++ "T" ++ t ++ ":00") ∧
    (∀ t, d.end_date = none → d.end_time = none →
      d.start_time = some (some t) →
      pe.end_ts = pyRepr (d.start_date.getD none) ++ "T" ++ t ++ ":00") ∧
    (d.end_date = none → d.end_time = none → d.start_time = none →
      pe.end_ts = pyRepr (d.start_date.getD none) ++ "T23:59:00") := by
  rw [parse_with_ollama] at h
  have hpe := (Option.some.inj h).symm
  subst hpe
  refine ⟨?_, ?_, ?_, ?_, ?_⟩
  · intro hst
    simp only [hst, Option.getD_none]
    rw [String.append_assoc, String.append_assoc]
    congr 1
  · intro t hst
    simp only [hst, Option.getD_some, pyRepr]
  · intro t hed het
    simp only [hed, het, Option.getD_none, Option.getD_some, pyRepr]
  · intro t hed het hst
    simp only [hed, het, hst, Option.getD_none, Option.getD_some, pyRepr]
  · intro hed het hst
    simp only [hed, het, hst, Option.getD_none, Option.getD_some, pyRepr]
    rw [String.append_assoc, String.append_assoc]
    congr 1

/-- Claim C8 (confirmed): the spec's round-trip — subject
`"Re: Soccer Practice Tomorrow"` with a body containing `"2024-03-15"`,
`"Location: Community Field"` and `"Please bring: water, cleats"` — yields
a candidate with confidence `1.0 ≥ 0.4`, title
`"Soccer Practice Tomorrow"`, start and end date `"2024-03-15"`, location
`"Community Field"`, and prep items `["water", "cleats"]`, for every
admissible set-iteration order. -/
theorem c8_roundtrip (f : List String → List String) (hf : PySetFun f) :
    RegexParser_parse f body8 subj8 = (some expected8, 10) ∧
    4 ≤ expected8.confidence := by
  have hs : extract_dates_scan body8 = ["2024-03-15"] := by decide
  have hd : f (extract_dates_scan body8) = ["2024-03-15"] := by
    rw [hs]; exact pySetFun_singleton hf "2024-03-15"
  constructor
  · unfold RegexParser_parse regex_confidence
    rw [hd]
    decide
  · decide

/-- Witness for C8 at the concrete order `pyDedup`. -/
theorem c8_witness :
    RegexParser_parse pyDedup body8 subj8 = (some expected8, 10) ∧
    4 ≤ expected8.confidence :=
  c8_roundtrip pyDedup pySetFun_pyDedup

/-- Claim C9 (confirmed): when the regex confidence is below the 0.7
escalation threshold and the generative reply is not valid JSON,
`_parse_with_ollama` returns `None` (the `JSONDecodeError` is caught, not
raised), and the coordinator inserts a `needs_review` event and marks the
message processed exactly once. -/
theorem c9_invalid_json_review (f : List String → List String)
    (email : EmailRecord) (cid : Option String) (nowIso : String)
    (a2 a3 : Option (List StoreAction))
    (h : (RegexParser_parse f email.raw_body email.subject).2 < 7) :
    parse_with_ollama OllamaResponse.invalid = none ∧
    processEmailAttempt f nowIso email false OllamaResponse.invalid cid =
      [StoreAction.insertEvent (insert_event nowIso email none "needs_review"),
       StoreAction.markProcessed true] ∧
    (insert_event nowIso email none "needs_review").status = "needs_review" ∧
    markCount (processMessage
        [some (processEmailAttempt f nowIso email false
            OllamaResponse.invalid cid), a2, a3]) = 1 := by
  have hatt : processEmailAttempt f nowIso email false OllamaResponse.invalid cid
      = [StoreAction.insertEvent (insert_event nowIso email none "needs_review"),
         StoreAction.markProcessed true] := by
    simp [processEmailAttempt, h, parse_with_ollama]
  refine ⟨rfl, hatt, rfl, ?_⟩
  rw [hatt]
  rfl

/-- A message whose regex confidence (0.2, title only) is below the
escalation threshold. -/
def email9 : EmailRecord :=
  { id := "email-9", user_id := "user-1", raw_body := "nothing here",
    subject := "Hello", from_email := "someone@example.com",
    received_at := "2024-03-01T09:00:00", processed := false }

/-- Witness for C9 at the concrete low-confidence message `email9`. -/
theorem c9_witness :
    parse_with_ollama OllamaResponse.invalid = none ∧
    processEmailAttempt pyDedup "NOW" email9 false OllamaResponse.invalid none =
      [StoreAction.insertEvent (insert_event "NOW" email9 none "needs_review"),
       StoreAction.markProcessed true] ∧
    (insert_event "NOW" email9 none "needs_review").status = "needs_review" ∧
    markCount (processMessage
        [some (processEmailAttempt pyDedup "NOW" email9 false
            OllamaResponse.invalid none), none, none]) = 1 :=
  c9_invalid_json_review pyDedup email9 none "NOW" none none (by decide)

/-- Claim C10 (confirmed): every reminder routed through
`_mark_reminder_sent` — successful push, missing push token, or device not
registered — gets `sent_at` set in the same update and keeps its retry
count, and since `_get_pending_reminders` requires `sent_at` unset it is
never fetched, sent, or retried again, regardless of the status value
written. -/
theorem c10_marked_terminal (r : Reminder) (now now2 : Int)
    (em : Option String) (pr : PushResult)
    (h : r.push_token = none ∨ pr = PushResult.success ∨
      pr = PushResult.deviceNotRegistered) :
    (∃ e2, send_push_notification r pr = SendOutcome.marked e2) ∧
    (mark_reminder_sent now em r).sent_at = some now ∧
    (mark_reminder_sent now em r).retry_count = r.retry_count ∧
    is_pending_reminder now2 (mark_reminder_sent now em r) = false := by
  refine ⟨?_, rfl, rfl, ?_⟩
  · cases htok : r.push_token with
    | none =>
        exact ⟨some "No push token", by simp [send_push_notification, htok]⟩
    | some t =>
        rcases h with h | h | h
        · rw [htok] at h; exact absurd h (by simp)
        · subst h; exact ⟨none, by simp [send_push_notification, htok]⟩
        · subst h
          exact ⟨some "Device not registered",
            by simp [send_push_notification, htok]⟩
  · simp [is_pending_reminder, mark_reminder_sent]

/-- Witness for C10 at the concrete reminder `rNoTok`. -/
theorem c10_witness :
    (∃ e2, send_push_notification rNoTok PushResult.success
        = SendOutcome.marked e2) ∧
    (mark_reminder_sent 100 (some "No push token") rNoTok).sent_at
      = some 100 ∧
    (mark_reminder_sent 100 (some "No push token") rNoTok).retry_count
      = rNoTok.retry_count ∧
    is_pending_reminder 500
        (mark_reminder_sent 100 (some "No push token") rNoTok) = false :=
  c10_marked_terminal rNoTok 100 500 (some "No push token")
    PushResult.success (Or.inl rfl)

/-- The candidate `_parse_with_ollama` builds from `c7dict`. -/
def c7pe : ParsedEvent :=
  { title := some "Untitled Event", start_ts := "2024-03-15T00:00:00",
    end_ts := "2024-03-15T23:59:00", location := none, prep_items := none,
    confidence := 8, child_id := none }

/-- Witness for C7's amended theorem at the concrete reply `c7dict`. -/
theorem c7_witness :
    c7pe.start_ts = pyRepr (c7dict.start_date.getD none) ++ "T00:00:00" ∧
    c7pe.end_ts = pyRepr (c7dict.start_date.getD none) ++ "T23:59:00" :=
  ⟨(c7_time_defaults c7dict c7pe (by decide)).1 rfl,
   (c7_time_defaults c7dict c7pe (by decide)).2.2.2.2 rfl rfl rfl⟩
